import Mathlib

set_option maxRecDepth 8192

/-- Characters of a string, the representation all definitions work on. -/
abbrev Str := List Char

/-- Capture groups recorded during a regex match: group index paired with the
captured text.  The most recent binding of an index is the valid one. -/
abbrev Groups := List (Nat × Str)

/-- Regular expressions of the restricted shape used by the migration script
`fix-drizzle-syntax.py`: literals, greedy star and plus over a character
class, concatenation, a greedy optional part, and numbered capture groups. -/
inductive RE where
  | lit : Str → RE
  | star : (Char → Bool) → RE
  | plus : (Char → Bool) → RE
  | seq : RE → RE → RE
  | opt : RE → RE
  | group : Nat → RE → RE

/-- Boolean test that the first list is a prefix of the second. -/
def isPref : Str → Str → Bool
  | [], _ => true
  | _ :: _, [] => false
  | a :: as, b :: bs => a = b && isPref as bs

/-- Length of the longest prefix of characters satisfying the class. -/
def maxRun (p : Char → Bool) (s : Str) : Nat := (s.takeWhile p).length

/-- Greedy backtracking over the number of characters a star consumes:
try `n` characters first, then fewer, down to zero. -/
def tryDrops (k : Str → Option α) (s : Str) : Nat → Option α
  | 0 => k s
  | n + 1 =>
    match k (s.drop (n + 1)) with
    | some r => some r
    | none => tryDrops k s n

/-- Greedy backtracking for plus: try `n` consumed characters first, then
fewer, down to one; fail when no character can be consumed. -/
def tryDropsPos (k : Str → Option α) (s : Str) : Nat → Option α
  | 0 => none
  | n + 1 =>
    match k (s.drop (n + 1)) with
    | some r => some r
    | none => tryDropsPos k s n

/-- Backtracking matcher in continuation style, mirroring the leftmost greedy
semantics of a backtracking regex engine on the restricted expression shape:
quantifiers consume as much as possible and give back one character at a time,
an optional part is tried before being skipped, and a capture group records
exactly the characters its body consumed on the successful path. -/
def matchRE (r : RE) (s : Str) (g : Groups) (k : Str → Groups → Option α) : Option α :=
  match r with
  | .lit l => if isPref l s then k (s.drop l.length) g else none
  | .star p => tryDrops (fun s2 => k s2 g) s (maxRun p s)
  | .plus p => tryDropsPos (fun s2 => k s2 g) s (maxRun p s)
  | .seq a b => matchRE a s g (fun s2 g2 => matchRE b s2 g2 k)
  | .opt a =>
    match matchRE a s g k with
    | some r2 => some r2
    | none => k s g
  | .group n a =>
    matchRE a s g (fun s2 g2 => k s2 ((n, s.take (s.length - s2.length)) :: g2))

/-- Attempt a match anchored at the start of `s`; on success return the capture
groups and the unconsumed remainder of `s`. -/
def matchTop (r : RE) (s : Str) : Option (Groups × Str) :=
  matchRE r s [] (fun s2 g2 => some (g2, s2))

/-- Global substitution as performed by `re.sub`: scan the text left to right,
replace each non-overlapping match (computing the replacement from its groups
with `f`) and continue scanning right after the matched span.  `fuel` bounds
the number of scanning steps; every caller passes one more than the length of
the text, which suffices because every pattern of the script consumes at least
one character per match. -/
def subRE (r : RE) (f : Groups → Str) : Nat → Str → Str
  | 0, s => s
  | fuel + 1, s =>
    match matchTop r s with
    | some (g, rest) => f g ++ subRE r f fuel rest
    | none =>
      match s with
      | [] => []
      | c :: cs => c :: subRE r f fuel cs

/-- First captured text bound to index `n`, if any. -/
def lookupG : Groups → Nat → Option Str
  | [], _ => none
  | (m, v) :: rest, n => if m = n then some v else lookupG rest n

/-- Captured text of group `n`, defaulting to the empty text. -/
def getG (g : Groups) (n : Nat) : Str := (lookupG g n).getD []

/-- Characters of a Lean string literal. -/
def str (s : String) : Str := s.data

/-- Word characters, the class `\w` of the script's patterns. -/
def wordChar (c : Char) : Bool := c.isAlphanum || c = '_'

/-- Whitespace characters, the class `\s` of the script's patterns. -/
def wsChar (c : Char) : Bool :=
  c = ' ' || c = '\t' || c = '\n' || c = '\r' || c = '\x0b' || c = '\x0c'

/-- Decimal digits, the class `\d` of the script's patterns. -/
def digitChar (c : Char) : Bool := c.isDigit

/-- The opening curly brace character. -/
def lbrace : Char := Char.ofNat 123

/-- The closing curly brace character. -/
def rbrace : Char := Char.ofNat 125

/-- The character class of everything but a closing brace. -/
def notRBrace (c : Char) : Bool := c ≠ rbrace

/-- The character class of everything but a comma or a closing brace. -/
def notCommaRBrace (c : Char) : Bool := c ≠ ',' && c ≠ rbrace

/-- The character class of everything but a closing parenthesis. -/
def notRParen (c : Char) : Bool := c ≠ ')'

/-- The character class of everything but a closing square bracket. -/
def notRBracket (c : Char) : Bool := c ≠ ']'

/-- Concatenation of a list of expressions. -/
def cat (rs : List RE) : RE := rs.foldr RE.seq (RE.lit [])

/-- The literal head shared by all five patterns of the script. -/
def dbq : Str := str "db.query."

/-- Tail of pattern 1 (after the shared head), from the source regex
`db\.query\.(\w+)\.findFirst\(\{\s*where:\s*([^}]+)\s*\}\)`. -/
def tail1 : RE :=
  cat [RE.group 1 (RE.plus wordChar), RE.lit (str ".findFirst(\x7b"),
    RE.star wsChar, RE.lit (str "where:"), RE.star wsChar,
    RE.group 2 (RE.plus notRBrace), RE.star wsChar, RE.lit (str "\x7d)")]

/-- Pattern 1 of the source: `db.query.TABLE.findFirst({ where: ... })`. -/
def pattern1 : RE := RE.seq (RE.lit dbq) tail1

/-- Tail of pattern 2, from the source regex
`db\.query\.(\w+)\.findFirst\(\{\s*where:\s*(and\([^)]+\))\s*\}\)`. -/
def tail2 : RE :=
  cat [RE.group 1 (RE.plus wordChar), RE.lit (str ".findFirst(\x7b"),
    RE.star wsChar, RE.lit (str "where:"), RE.star wsChar,
    RE.group 2 (cat [RE.lit (str "and("), RE.plus notRParen, RE.lit (str ")")]),
    RE.star wsChar, RE.lit (str "\x7d)")]

/-- Pattern 2 of the source: `db.query.TABLE.findFirst({ where: and(...) })`. -/
def pattern2 : RE := RE.seq (RE.lit dbq) tail2

/-- Tail of pattern 3, from the source regex
`db\.query\.(\w+)\.findMany\(\{\s*where:\s*([^,}]+)(?:,\s*orderBy:[^}]*)?(?:,\s*limit:[^}]*)?\s*\}\)`. -/
def tail3 : RE :=
  cat [RE.group 1 (RE.plus wordChar), RE.lit (str ".findMany(\x7b"),
    RE.star wsChar, RE.lit (str "where:"), RE.star wsChar,
    RE.group 2 (RE.plus notCommaRBrace),
    RE.opt (cat [RE.lit (str ","), RE.star wsChar, RE.lit (str "orderBy:"),
      RE.star notRBrace]),
    RE.opt (cat [RE.lit (str ","), RE.star wsChar, RE.lit (str "limit:"),
      RE.star notRBrace]),
    RE.star wsChar, RE.lit (str "\x7d)")]

/-- Pattern 3 of the source: `db.query.TABLE.findMany({ where: ... })` with
optional orderBy and limit clauses that the replacement discards. -/
def pattern3 : RE := RE.seq (RE.lit dbq) tail3

/-- Tail of pattern 4, from the source regex
`db\.query\.(\w+)\.findMany\(\{\s*where:\s*([^,}]+),\s*orderBy:\s*\[([^\]]+)\](?:,\s*limit:\s*(\d+))?\s*\}\)`. -/
def tail4 : RE :=
  cat [RE.group 1 (RE.plus wordChar), RE.lit (str ".findMany(\x7b"),
    RE.star wsChar, RE.lit (str "where:"), RE.star wsChar,
    RE.group 2 (RE.plus notCommaRBrace),
    RE.lit (str ","), RE.star wsChar, RE.lit (str "orderBy:"),
    RE.star wsChar, RE.lit (str "["), RE.group 3 (RE.plus notRBracket),
    RE.lit (str "]"),
    RE.opt (cat [RE.lit (str ","), RE.star wsChar, RE.lit (str "limit:"),
      RE.star wsChar, RE.group 4 (RE.plus digitChar)]),
    RE.star wsChar, RE.lit (str "\x7d)")]

/-- Pattern 4 of the source: `db.query.TABLE.findMany({ where: ..., orderBy:
[...] })` with an optional numeric limit. -/
def pattern4 : RE := RE.seq (RE.lit dbq) tail4

/-- Tail of pattern 5, from the source regex `db\.query\.(\w+)\.findMany\(\)`. -/
def tail5 : RE := cat [RE.group 1 (RE.plus wordChar), RE.lit (str ".findMany()")]

/-- Pattern 5 of the source: `db.query.TABLE.findMany()`. -/
def pattern5 : RE := RE.seq (RE.lit dbq) tail5

/-- Replacement of patterns 1 and 2:
`db.select().from(\1).where(\2).limit(1)`. -/
def repl1 (g : Groups) : Str :=
  str "db.select().from(" ++ getG g 1 ++ str ").where(" ++ getG g 2 ++
    str ").limit(1)"

/-- Replacement of pattern 3: `db.select().from(\1).where(\2)`. -/
def repl3 (g : Groups) : Str :=
  str "db.select().from(" ++ getG g 1 ++ str ").where(" ++ getG g 2 ++ str ")"

/-- Replacement of pattern 4, the source's `replacement4` function: build
`db.select().from(T).where(W).orderBy(O)` and append `.limit(N)` exactly when
the optional limit group matched. -/
def repl4 (g : Groups) : Str :=
  str "db.select().from(" ++ getG g 1 ++ str ").where(" ++ getG g 2 ++
    str ").orderBy(" ++ getG g 3 ++ str ")" ++
    (match lookupG g 4 with
     | some l => str ".limit(" ++ l ++ str ")"
     | none => [])

/-- Replacement of pattern 5: `db.select().from(\1)`. -/
def repl5 (g : Groups) : Str := str "db.select().from(" ++ getG g 1 ++ str ")"

/-- First substitution pass of `fix_drizzle_syntax`. -/
def sub1 (s : Str) : Str := subRE pattern1 repl1 (s.length + 1) s

/-- Second substitution pass of `fix_drizzle_syntax`. -/
def sub2 (s : Str) : Str := subRE pattern2 repl1 (s.length + 1) s

/-- Third substitution pass of `fix_drizzle_syntax`. -/
def sub3 (s : Str) : Str := subRE pattern3 repl3 (s.length + 1) s

/-- Fourth substitution pass of `fix_drizzle_syntax`. -/
def sub4 (s : Str) : Str := subRE pattern4 repl4 (s.length + 1) s

/-- Fifth substitution pass of `fix_drizzle_syntax`. -/
def sub5 (s : Str) : Str := subRE pattern5 repl5 (s.length + 1) s

/-- The pure transform of the script (source function `fix_drizzle_syntax`):
the five regex substitutions applied in order to the whole text. -/
def fix_drizzle (s : Str) : Str := sub5 (sub4 (sub3 (sub2 (sub1 s))))

/-- State of a path on the modelled filesystem: missing, present but failing
to read (the modelled read-time exception), readable and writable with some
content, or readable with some content but failing to write (the modelled
write-time exception, e.g. a permission error on opening for writing). -/
inductive FileState where
  | absent
  | unreadable
  | readable (content : Str)
  | writeProtected (content : Str)
deriving DecidableEq

/-- The filesystem: an association of paths to file states; paths not listed
are absent. -/
abbrev FS := List (String × FileState)

/-- State of a path, defaulting to absent. -/
def lookupFS (fs : FS) (p : String) : FileState :=
  match fs with
  | [] => .absent
  | (q, st) :: rest => if q = p then st else lookupFS rest p

/-- In-place write of new content to a path. -/
def writeFS (fs : FS) (p : String) (c : Str) : FS := (p, .readable c) :: fs

/-- Existence check of the driver (`Path.exists()`): true for any state other
than absent. -/
def existsFS (fs : FS) (p : String) : Bool :=
  match lookupFS fs p with
  | .absent => false
  | _ => true

/-- The stderr line the script prints when processing a file raises. -/
def errLine (p : String) : String := "Error processing " ++ p

/-- The source's `process_file`: read the file (an unreadable or absent file
raises), apply the transform, and write back only when the content changed
(a write-protected file raises at that point, leaving its content untouched).
Any exception is caught by the function's catch-all, logged to stderr, and
reported as `False`; `True` is returned exactly when a write happened.  The
result is the returned flag, the filesystem after the call, and the stderr
lines produced. -/
def process_file (fs : FS) (p : String) : Bool × FS × List String :=
  match lookupFS fs p with
  | .readable c =>
    let fixed := fix_drizzle c
    if fixed = c then (false, fs, []) else (true, writeFS fs p fixed, [])
  | .writeProtected c =>
    let fixed := fix_drizzle c
    if fixed = c then (false, fs, []) else (false, fs, [errLine p])
  | _ => (false, fs, [errLine p])

/-- Per-file status printed by the driver. -/
inductive Status where
  | fixedFile
  | noChanges
  | notFound
deriving DecidableEq

/-- Outcome of a run of the script: one status line per listed path in order,
the final filesystem, the count of changed files, the stderr lines, and the
process exit code. -/
structure RunResult where
  reports : List (String × Status)
  fs : FS
  fixed_count : Nat
  errors : List String
  exitCode : Nat
deriving DecidableEq

/-- Loop body of the source's `main`: for each path in order, report not-found
for absent paths, otherwise run `process_file` and report fixed or no-changes,
counting the fixed ones.  The exit code is always 0: the script has no failing
exit path. -/
def mainLoop (fs : FS) : List String → RunResult
  | [] => ⟨[], fs, 0, [], 0⟩
  | p :: rest =>
    if existsFS fs p then
      let pr := process_file fs p
      let r := mainLoop pr.2.1 rest
      ⟨(p, if pr.1 then Status.fixedFile else Status.noChanges) :: r.reports,
        r.fs, (if pr.1 then 1 else 0) + r.fixed_count, pr.2.2 ++ r.errors, 0⟩
    else
      let r := mainLoop fs rest
      ⟨(p, Status.notFound) :: r.reports, r.fs, r.fixed_count, r.errors, 0⟩

/-- The hardcoded file list of the source's `main`. -/
def files_to_process : List String :=
  ["src/middleware/tenant.ts",
   "src/routes/consulting.ts",
   "src/routes/orchestrator.ts",
   "src/routes/upload.ts",
   "src/services/social-media/scheduler.ts",
   "src/services/stripe.ts",
   "src/services/results/trigger-engine.ts",
   "src/services/workflow/automated-flow.ts",
   "src/services/modules/lxp/lxp-module.ts",
   "src/services/modules/hiring/hiring-module.ts",
   "src/services/orchestrator/architect-ai.ts",
   "src/services/stripe-service.ts"]

/-- The source's `main` function, run against a modelled filesystem. -/
def mainRun (fs : FS) : RunResult := mainLoop fs files_to_process

/-- Status recorded for a path in a report list (first occurrence). -/
def lookupRep (p : String) : List (String × Status) → Option Status
  | [] => none
  | (q, st) :: rest => if q = p then some st else lookupRep p rest

/-- Number of fixed-file reports in a report list. -/
def countFixed : List (String × Status) → Nat
  | [] => 0
  | (_, st) :: rest => (if st = Status.fixedFile then 1 else 0) + countFixed rest

/-- Boolean search for an occurrence of `needle` anywhere in the text. -/
def containsStr (needle : Str) : Str → Bool
  | [] => isPref needle []
  | c :: cs => isPref needle (c :: cs) || containsStr needle cs

/-- Boolean test that the pattern matches somewhere in the text. -/
def hasAnyMatch (r : RE) : Str → Bool
  | [] => (matchTop r []).isSome
  | c :: cs => (matchTop r (c :: cs)).isSome || hasAnyMatch r cs

/-- Boolean test that none of the five patterns of the script matches anywhere
in the text. -/
def noMatch5 (c : Str) : Bool :=
  !(hasAnyMatch pattern1 c || hasAnyMatch pattern2 c || hasAnyMatch pattern3 c ||
    hasAnyMatch pattern4 c || hasAnyMatch pattern5 c)

/-- A text with no match anywhere has no match anchored at its start. -/
theorem matchTop_eq_none (r : RE) (s : Str) (h : hasAnyMatch r s = false) :
    matchTop r s = none := by
  cases s with
  | nil =>
    unfold hasAnyMatch at h
    cases ho : matchTop r [] with
    | none => rfl
    | some v => rw [ho] at h; simp at h
  | cons c cs =>
    unfold hasAnyMatch at h
    cases ho : matchTop r (c :: cs) with
    | none => rfl
    | some v => rw [ho] at h; simp at h

/-- A text with no match anywhere has no match in its tail either. -/
theorem hasAnyMatch_tail (r : RE) (c : Char) (cs : Str)
    (h : hasAnyMatch r (c :: cs) = false) : hasAnyMatch r cs = false := by
  unfold hasAnyMatch at h
  simp at h
  exact h.2

/-- Substitution leaves a text unchanged when the pattern matches nowhere. -/
theorem subRE_id (r : RE) (f : Groups → Str) :
    ∀ (fuel : Nat) (s : Str), hasAnyMatch r s = false → subRE r f fuel s = s := by
  intro fuel
  induction fuel with
  | zero => intro s h; rfl
  | succ n ih =>
    intro s h
    have hm := matchTop_eq_none r s h
    cases s with
    | nil => simp [subRE, hm]
    | cons c cs =>
      have ht := hasAnyMatch_tail r c cs h
      simp [subRE, hm, ih cs ht]

/-- A pattern that starts with a literal cannot match in a text that does not
contain that literal anywhere. -/
theorem hasAnyMatch_seq_lit (l : Str) (r : RE) (s : Str)
    (h : containsStr l s = false) : hasAnyMatch (RE.seq (RE.lit l) r) s = false := by
  induction s with
  | nil =>
    unfold containsStr at h
    unfold hasAnyMatch matchTop
    simp [matchRE, h]
  | cons c cs ih =>
    unfold containsStr at h
    simp at h
    unfold hasAnyMatch matchTop
    simp [matchRE, h.1]
    have := ih h.2
    unfold hasAnyMatch matchTop at this ⊢
    exact this

/-- The transform is the identity on any text not containing the literal
`db.query.`, since all five patterns start with that literal. -/
theorem fix_drizzle_of_no_dbq (s : Str) (h : containsStr dbq s = false) :
    fix_drizzle s = s := by
  have h1 : hasAnyMatch pattern1 s = false := hasAnyMatch_seq_lit dbq tail1 s h
  have h2 : hasAnyMatch pattern2 s = false := hasAnyMatch_seq_lit dbq tail2 s h
  have h3 : hasAnyMatch pattern3 s = false := hasAnyMatch_seq_lit dbq tail3 s h
  have h4 : hasAnyMatch pattern4 s = false := hasAnyMatch_seq_lit dbq tail4 s h
  have h5 : hasAnyMatch pattern5 s = false := hasAnyMatch_seq_lit dbq tail5 s h
  have e1 : sub1 s = s := subRE_id pattern1 repl1 (s.length + 1) s h1
  have e2 : sub2 s = s := subRE_id pattern2 repl1 (s.length + 1) s h2
  have e3 : sub3 s = s := subRE_id pattern3 repl3 (s.length + 1) s h3
  have e4 : sub4 s = s := subRE_id pattern4 repl4 (s.length + 1) s h4
  have e5 : sub5 s = s := subRE_id pattern5 repl5 (s.length + 1) s h5
  unfold fix_drizzle
  rw [e1, e2, e3, e4, e5]

/-- The transform is the identity on any text in which none of the five
patterns matches. -/
theorem fix_drizzle_of_noMatch5 (s : Str) (h : noMatch5 s = true) :
    fix_drizzle s = s := by
  unfold noMatch5 at h
  simp only [Bool.not_eq_true', Bool.or_eq_false_iff] at h
  obtain ⟨⟨⟨⟨h1, h2⟩, h3⟩, h4⟩, h5⟩ := h
  have e1 : sub1 s = s := subRE_id pattern1 repl1 (s.length + 1) s h1
  have e2 : sub2 s = s := subRE_id pattern2 repl1 (s.length + 1) s h2
  have e3 : sub3 s = s := subRE_id pattern3 repl3 (s.length + 1) s h3
  have e4 : sub4 s = s := subRE_id pattern4 repl4 (s.length + 1) s h4
  have e5 : sub5 s = s := subRE_id pattern5 repl5 (s.length + 1) s h5
  unfold fix_drizzle
  rw [e1, e2, e3, e4, e5]

/-- The driver reports exactly the listed paths, in list order. -/
theorem mainLoop_map_fst : ∀ (l : List String) (fs : FS),
    (mainLoop fs l).reports.map Prod.fst = l := by
  intro l
  induction l with
  | nil => intro fs; rfl
  | cons p rest ih =>
    intro fs
    by_cases h : existsFS fs p = true
    · simp [mainLoop, h, ih]
    · simp [mainLoop, h, ih]

/-- The driver's exit code is 0 on every filesystem. -/
theorem mainLoop_exitCode : ∀ (l : List String) (fs : FS),
    (mainLoop fs l).exitCode = 0 := by
  intro l fs
  cases l with
  | nil => rfl
  | cons p rest =>
    by_cases h : existsFS fs p = true
    · simp [mainLoop, h]
    · simp [mainLoop, h]

/-- The changed-file count equals the number of fixed-file reports. -/
theorem mainLoop_count : ∀ (l : List String) (fs : FS),
    (mainLoop fs l).fixed_count = countFixed (mainLoop fs l).reports := by
  intro l
  induction l with
  | nil => intro fs; rfl
  | cons p rest ih =>
    intro fs
    by_cases h : existsFS fs p = true
    · cases hpr : (process_file fs p).1 with
      | false => simp [mainLoop, h, hpr, countFixed, ih]
      | true => simp [mainLoop, h, hpr, countFixed, ih]
    · simp [mainLoop, h, countFixed, ih]

/-- Processing one file never creates a path that was absent. -/
theorem process_file_absent (fs : FS) (q p : String)
    (h : lookupFS fs p = .absent) :
    lookupFS (process_file fs q).2.1 p = .absent := by
  cases hq : lookupFS fs q with
  | absent => simp [process_file, hq, h]
  | unreadable => simp [process_file, hq, h]
  | writeProtected c =>
    by_cases hfix : fix_drizzle c = c
    · simp [process_file, hq, hfix, h]
    · simp [process_file, hq, hfix, h]
  | readable c =>
    by_cases hfix : fix_drizzle c = c
    · simp [process_file, hq, hfix, h]
    · simp [process_file, hq, hfix, writeFS, lookupFS]
      by_cases hqp : q = p
      · subst hqp
        rw [h] at hq
        exact absurd hq (by simp)
      · simp [hqp, h]

/-- The whole run never creates a path that was absent. -/
theorem mainLoop_fs_absent : ∀ (l : List String) (fs : FS) (p : String),
    lookupFS fs p = .absent → lookupFS (mainLoop fs l).fs p = .absent := by
  intro l
  induction l with
  | nil => intro fs p h; exact h
  | cons q rest ih =>
    intro fs p h
    by_cases hq : existsFS fs q = true
    · simp [mainLoop, hq]
      exact ih _ p (process_file_absent fs q p h)
    · simp [mainLoop, hq]
      exact ih fs p h

/-- A listed absent path is reported not-found and stays absent. -/
theorem mainLoop_absent_notFound : ∀ (l : List String) (fs : FS) (p : String),
    p ∈ l → lookupFS fs p = .absent →
    lookupRep p (mainLoop fs l).reports = some Status.notFound ∧
    lookupFS (mainLoop fs l).fs p = .absent := by
  intro l
  induction l with
  | nil => intro fs p hmem; exact absurd hmem (List.not_mem_nil p)
  | cons q rest ih =>
    intro fs p hmem habs
    by_cases hqp : q = p
    · subst hqp
      have hex : existsFS fs q = false := by unfold existsFS; rw [habs]
      constructor
      · simp [mainLoop, hex, lookupRep]
      · simp [mainLoop, hex]
        exact mainLoop_fs_absent rest fs q habs
    · have hmem2 : p ∈ rest := by
        cases hmem with
        | head => exact absurd rfl hqp
        | tail _ h2 => exact h2
      by_cases hq : existsFS fs q = true
      · have := ih _ p hmem2 (process_file_absent fs q p habs)
        simp [mainLoop, hq, lookupRep, hqp]
        exact this
      · have := ih fs p hmem2 habs
        simp [mainLoop, hq, lookupRep, hqp]
        exact this

/-- Claim C1 (counterexample): on the input
`db.query.users.findFirst({ where: eq(id, 1) })` the transform does NOT return
the documented target `db.select().from(users).where(eq(id, 1)).limit(1)`:
the greedy condition class of pattern 1 also captures the whitespace before
the closing brace, so the actual output carries an extra space. -/
theorem c1_findFirst_rewrite_cex :
    fix_drizzle (str "db.query.users.findFirst(\x7b where: eq(id, 1) \x7d)") ≠
      str "db.select().from(users).where(eq(id, 1)).limit(1)" := by
  decide

/-- Claim C1 (amended): on the input
`db.query.users.findFirst({ where: eq(id, 1) })` the transform returns exactly
`db.select().from(users).where(eq(id, 1) ).limit(1)`, with the space that the
condition group captured before the closing brace. -/
theorem c1_findFirst_rewrite_amended :
    fix_drizzle (str "db.query.users.findFirst(\x7b where: eq(id, 1) \x7d)") =
      str "db.select().from(users).where(eq(id, 1) ).limit(1)" := by
  decide

/-- Claim C2: on the input
`db.query.posts.findMany({ where: eq(author, 2), orderBy: [desc(createdAt)], limit: 5 })`
the transform returns the input unchanged: the where-condition class `[^,}]+`
of patterns 3 and 4 cannot span the comma inside `eq(author, 2)`, so neither
findMany pattern matches, contradicting the documented rewrite. -/
theorem c2_findMany_orderBy_unchanged :
    fix_drizzle (str "db.query.posts.findMany(\x7b where: eq(author, 2), orderBy: [desc(createdAt)], limit: 5 \x7d)") =
      str "db.query.posts.findMany(\x7b where: eq(author, 2), orderBy: [desc(createdAt)], limit: 5 \x7d)" := by
  decide

/-- Claim C3: on the input `db.query.users.findMany({ where: eq(id, 1) })` —
a findMany with a single condition expression — the transform returns the
input unchanged, because pattern 3's condition class `[^,}]+` cannot span the
comma inside `eq(id, 1)`; the claimed universal rewrite to
`db.select().from(users).where(eq(id, 1))` does not happen. -/
theorem c3_findMany_comma_unchanged :
    fix_drizzle (str "db.query.users.findMany(\x7b where: eq(id, 1) \x7d)") =
      str "db.query.users.findMany(\x7b where: eq(id, 1) \x7d)" := by
  decide

/-- Claim C4 (counterexample): the transform is not idempotent.  On the nested
input `db.query.a.findFirst({ where: db.query.b.findFirst({ where: y }) })`
the first pass leaves a `db.query.` call inside its own replacement text and
closes it with later text, so a second pass rewrites again. -/
theorem c4_idempotence_cex :
    fix_drizzle (fix_drizzle (str "db.query.a.findFirst(\x7b where: db.query.b.findFirst(\x7b where: y \x7d) \x7d)")) ≠
      fix_drizzle (str "db.query.a.findFirst(\x7b where: db.query.b.findFirst(\x7b where: y \x7d) \x7d)") := by
  decide

/-- Claim C4 (amended): applying the transform twice yields the same result as
applying it once for every input whose single-pass output no longer contains
the substring `db.query.` (the old calling shape); nested pathological inputs
whose output still contains `db.query.` can be rewritten again. -/
theorem c4_idempotent_of_no_marker (t : Str)
    (h : containsStr dbq (fix_drizzle t) = false) :
    fix_drizzle (fix_drizzle t) = fix_drizzle t :=
  fix_drizzle_of_no_dbq (fix_drizzle t) h

/-- Witness for the amended claim C4 at the concrete input
`db.query.users.findMany()`. -/
theorem c4_idempotent_of_no_marker_witness :
    containsStr dbq (fix_drizzle (str "db.query.users.findMany()")) = false ∧
    fix_drizzle (fix_drizzle (str "db.query.users.findMany()")) =
      fix_drizzle (str "db.query.users.findMany()") :=
  ⟨by decide, c4_idempotent_of_no_marker (str "db.query.users.findMany()") (by decide)⟩

/-- Claim C5: for a readable file, the file is written back exactly when the
transformed content differs from the original (the returned flag is true
exactly then, and the filesystem is unchanged exactly otherwise), and for
content matching none of the five patterns the transform is the identity and
the call performs no write, no log, and reports the unchanged outcome. -/
theorem c5_write_iff_changed (fs : FS) (p : String) (c : Str)
    (h : lookupFS fs p = .readable c) :
    ((process_file fs p).1 = true ↔ fix_drizzle c ≠ c) ∧
    ((process_file fs p).2.1 = fs ↔ fix_drizzle c = c) ∧
    (noMatch5 c = true → fix_drizzle c = c ∧ process_file fs p = (false, fs, [])) := by
  by_cases hfix : fix_drizzle c = c
  · refine ⟨?_, ?_, ?_⟩
    · simp [process_file, h, hfix]
    · simp [process_file, h, hfix]
    · intro hm
      exact ⟨hfix, by simp [process_file, h, hfix]⟩
  · refine ⟨?_, ?_, ?_⟩
    · simp [process_file, h, hfix]
    · simp [process_file, h, hfix, writeFS]
    · intro hm
      exact absurd (fix_drizzle_of_noMatch5 c hm) hfix

/-- Witness for claim C5 at a concrete one-file filesystem whose content
matches no pattern. -/
theorem c5_write_iff_changed_witness :
    lookupFS [("f.ts", FileState.readable (str "let x = 1"))] "f.ts" =
      FileState.readable (str "let x = 1") ∧
    (((process_file [("f.ts", FileState.readable (str "let x = 1"))] "f.ts").1 = true ↔
        fix_drizzle (str "let x = 1") ≠ str "let x = 1") ∧
      ((process_file [("f.ts", FileState.readable (str "let x = 1"))] "f.ts").2.1 =
          [("f.ts", FileState.readable (str "let x = 1"))] ↔
        fix_drizzle (str "let x = 1") = str "let x = 1") ∧
      (noMatch5 (str "let x = 1") = true →
        fix_drizzle (str "let x = 1") = str "let x = 1" ∧
        process_file [("f.ts", FileState.readable (str "let x = 1"))] "f.ts" =
          (false, [("f.ts", FileState.readable (str "let x = 1"))], []))) :=
  ⟨by decide,
   c5_write_iff_changed [("f.ts", FileState.readable (str "let x = 1"))] "f.ts"
     (str "let x = 1") (by decide)⟩

/-- Claim C6 (counterexample): the outcome returned for a file whose read
raises is `False`, the very same value returned for an unchanged file — the
code has no error outcome distinct from changed and unchanged; only the
stderr log differs. -/
theorem c6_error_outcome_cex :
    (process_file [("a.ts", FileState.unreadable)] "a.ts").1 =
      (process_file [("b.ts", FileState.readable (str "x"))] "b.ts").1 ∧
    (process_file [("a.ts", FileState.unreadable)] "a.ts").1 = false ∧
    (process_file [("a.ts", FileState.unreadable)] "a.ts").2.2 = [errLine "a.ts"] ∧
    (process_file [("b.ts", FileState.readable (str "x"))] "b.ts").2.2 = [] := by
  decide

/-- Claim C6 (amended): whenever an exception occurs while processing a file —
the read raises (an unreadable or a missing file) or the write raises (a
write-protected file whose transformed content differs and so is written) —
`process_file` catches it, logs one line to the error channel, leaves the
filesystem unchanged, and returns `False` — the same outcome value as an
unchanged file, not a distinct error outcome — and the overall run still
reports every listed file and exits successfully. -/
theorem c6_error_handling_amended (fs : FS) (p : String)
    (h : lookupFS fs p = .unreadable ∨ lookupFS fs p = .absent ∨
      ∃ c, lookupFS fs p = .writeProtected c ∧ fix_drizzle c ≠ c) :
    process_file fs p = (false, fs, [errLine p]) ∧
    (mainRun fs).exitCode = 0 ∧
    (mainRun fs).reports.map Prod.fst = files_to_process := by
  refine ⟨?_, mainLoop_exitCode files_to_process fs,
    mainLoop_map_fst files_to_process fs⟩
  rcases h with h | h | ⟨c, hc, hne⟩
  · simp [process_file, h]
  · simp [process_file, h]
  · simp [process_file, hc, hne]

/-- Witness for the amended claim C6 at a concrete write-protected file whose
content the transform changes, so that the modelled write raises. -/
theorem c6_error_handling_amended_witness :
    (lookupFS [("w.ts", FileState.writeProtected (str "db.query.w.findMany()"))] "w.ts" =
        FileState.writeProtected (str "db.query.w.findMany()") ∧
      fix_drizzle (str "db.query.w.findMany()") ≠ str "db.query.w.findMany()") ∧
    (process_file [("w.ts", FileState.writeProtected (str "db.query.w.findMany()"))] "w.ts" =
        (false, [("w.ts", FileState.writeProtected (str "db.query.w.findMany()"))],
          [errLine "w.ts"]) ∧
      (mainRun [("w.ts", FileState.writeProtected (str "db.query.w.findMany()"))]).exitCode = 0 ∧
      (mainRun [("w.ts", FileState.writeProtected (str "db.query.w.findMany()"))]).reports.map
          Prod.fst = files_to_process) :=
  ⟨⟨by decide, by decide⟩,
   c6_error_handling_amended
     [("w.ts", FileState.writeProtected (str "db.query.w.findMany()"))] "w.ts"
     (Or.inr (Or.inr ⟨str "db.query.w.findMany()", by decide, by decide⟩))⟩

/-- Claim C7: a listed path that is absent from the filesystem is reported
not-found, is not created by the run, is not counted in the changed total
(the count equals the number of fixed-file reports, and the path's report is
not-found), and the reports cover exactly the listed paths in list order. -/
theorem c7_not_found (fs : FS) (p : String) (hmem : p ∈ files_to_process)
    (habs : lookupFS fs p = .absent) :
    lookupRep p (mainRun fs).reports = some Status.notFound ∧
    lookupFS (mainRun fs).fs p = .absent ∧
    (mainRun fs).reports.map Prod.fst = files_to_process ∧
    (mainRun fs).fixed_count = countFixed (mainRun fs).reports := by
  obtain ⟨h1, h2⟩ := mainLoop_absent_notFound files_to_process fs p hmem habs
  exact ⟨h1, h2, mainLoop_map_fst files_to_process fs,
    mainLoop_count files_to_process fs⟩

/-- Witness for claim C7 on the empty filesystem and the fourth listed path. -/
theorem c7_not_found_witness :
    "src/routes/upload.ts" ∈ files_to_process ∧
    (lookupRep "src/routes/upload.ts" (mainRun []).reports = some Status.notFound ∧
      lookupFS (mainRun []).fs "src/routes/upload.ts" = FileState.absent ∧
      (mainRun []).reports.map Prod.fst = files_to_process ∧
      (mainRun []).fixed_count = countFixed (mainRun []).reports) :=
  ⟨by decide, c7_not_found [] "src/routes/upload.ts" (by decide) (by decide)⟩

/-- Claim C8: on the input `db.query.posts.findMany()` the transform returns
exactly `db.select().from(posts)`. -/
theorem c8_findMany_plain :
    fix_drizzle (str "db.query.posts.findMany()") = str "db.select().from(posts)" := by
  decide

/-- Claim C9: on every filesystem the run reports every listed file, in list
order — so an error on one file never prevents the later files from being
processed and reported — and the exit code is always 0. -/
theorem c9_batch_completion (fs : FS) :
    (mainRun fs).reports.map Prod.fst = files_to_process ∧
    (mainRun fs).exitCode = 0 :=
  ⟨mainLoop_map_fst files_to_process fs, mainLoop_exitCode files_to_process fs⟩

/-- Claim C10: the transform returns any text that does not contain the
substring `db.query.` unchanged, since every one of the five patterns starts
with that literal. -/
theorem c10_no_marker_unchanged (s : Str) (h : containsStr dbq s = false) :
    fix_drizzle s = s :=
  fix_drizzle_of_no_dbq s h

/-- Witness for claim C10 at a concrete text without the marker. -/
theorem c10_no_marker_unchanged_witness :
    containsStr dbq (str "const x = db.select().from(users);") = false ∧
    fix_drizzle (str "const x = db.select().from(users);") =
      str "const x = db.select().from(users);" :=
  ⟨by decide, c10_no_marker_unchanged (str "const x = db.select().from(users);") (by decide)⟩
